import Mathlib

/-!
Verification of the electric-rocker repository core logic.

The repository has two Python programs, `electric-rocker.py` and
`electric-rack.py`, sharing the same telemetry-fusion logic
(`PowerMeter.power_data`), a zone color map (`zone_color` over `COLORMAP`
with `FTP = 250`), an exponential power smoother, and a cadence-driven
render-mode selector and chase-animation schedule.

Numbers are modelled as ℚ (Python true division on small integers is
exact), counters as ℕ, and Python `None` as `Option.none`.
-/

/-- Modelled from the spec: the `wrapDifference` method is inherited from
the external ANT library class `BicyclePower` and its body is not among the
repository sources; the spec (WrapDeltaCounter, section 4.1) defines it as
the forward distance `(current - previous) mod modulus` for readings of a
wrap-around counter.  Python `%` on integers agrees with `Int.emod` for a
positive modulus, so we compute over ℤ and take `toNat`. -/
def wrapDifference (current previous modulus : ℕ) : ℕ :=
  (((current : ℤ) - (previous : ℤ)) % (modulus : ℤ)).toNat

/-- State of a `PowerMeter` object: fields `previous_count`,
`previous_power`, `power`, `cadence`, all initialised to `None` in
`__init__`. -/
structure PowerMeter where
  previous_count : Option ℕ
  previous_power : Option ℕ
  power : Option ℚ
  cadence : Option ℚ
deriving DecidableEq, Repr

/-- The state right after `__init__`: every field is `None`. -/
def initMeter : PowerMeter := ⟨none, none, none, none⟩

/-- One broadcast sample as delivered to the `onPowerData` callback.  The
unused `_differ` and `_ratio` callback arguments are omitted. -/
structure RawSample where
  count : ℕ
  cadence : Option ℚ
  apower : ℕ
  ipower : Option ℚ
deriving DecidableEq, Repr

namespace Rocker

/-- Embedding of `PowerMeter.power_data` from `electric-rocker.py`
(lines 104-117).  The cadence overwrite happens first; on the first ever
sample `power` is set to the instantaneous power; afterwards a zero
event-count delta returns early (before the previous counters are
updated), and otherwise `power := total / events` using Python true
division.  The arm where `previous_count` is set but `previous_power` is
not is unreachable: the two fields are always assigned together. -/
def power_data (s : PowerMeter) (count : ℕ) (cadence : Option ℚ) (apower : ℕ)
    (ipower : Option ℚ) : PowerMeter :=
  let s1 : PowerMeter :=
    match cadence with
    | some c => ⟨s.previous_count, s.previous_power, s.power, some c⟩
    | none => s
  match s1.previous_count, s1.previous_power with
  | none, _ =>
    ⟨some count, some apower, ipower, s1.cadence⟩
  | some pc, some pp =>
    let events := wrapDifference count pc 256
    if events = 0 then s1
    else
      let total := wrapDifference apower pp 65536
      ⟨some count, some apower, some ((total : ℚ) / (events : ℚ)), s1.cadence⟩
  | some _, none => s1

/-- Feed one `RawSample` through `power_data`. -/
def ingest (s : PowerMeter) (x : RawSample) : PowerMeter :=
  power_data s x.count x.cadence x.apower x.ipower

end Rocker

namespace Rack

/-- Embedding of `PowerMeter.power_data` from `electric-rack.py`
(lines 86-99), translated independently from that file; the body is
line-for-line the same as in `electric-rocker.py`. -/
def power_data (s : PowerMeter) (count : ℕ) (cadence : Option ℚ) (apower : ℕ)
    (ipower : Option ℚ) : PowerMeter :=
  let s1 : PowerMeter :=
    match cadence with
    | some c => ⟨s.previous_count, s.previous_power, s.power, some c⟩
    | none => s
  match s1.previous_count, s1.previous_power with
  | none, _ =>
    ⟨some count, some apower, ipower, s1.cadence⟩
  | some pc, some pp =>
    let events := wrapDifference count pc 256
    if events = 0 then s1
    else
      let total := wrapDifference apower pp 65536
      ⟨some count, some apower, some ((total : ℚ) / (events : ℚ)), s1.cadence⟩
  | some _, none => s1

/-- Feed one `RawSample` through `power_data`. -/
def ingest (s : PowerMeter) (x : RawSample) : PowerMeter :=
  power_data s x.count x.cadence x.apower x.ipower

end Rack

/-- A color as an (r, g, b) triple of bytes. -/
abbrev RGB := ℕ × ℕ × ℕ

/-- One entry of the zone color table: a threshold percentage and a color. -/
structure ColorZone where
  base : ℚ
  rgb : RGB
deriving DecidableEq, Repr

/-- Rider configuration `FTP = 250` from the source. -/
def FTP : ℚ := 250

/-- The Zwift power zone color map, the 7-entry `COLORMAP` table of the
source (identical in both programs). -/
def COLORMAP : List ColorZone :=
  [⟨0, (0, 0, 0)⟩,        -- Black
   ⟨1, (64, 64, 64)⟩,     -- White
   ⟨60, (0, 0, 127)⟩,     -- Blue
   ⟨76, (0, 127, 0)⟩,     -- Green
   ⟨90, (127, 127, 0)⟩,   -- Yellow
   ⟨105, (127, 63, 0)⟩,   -- Orange
   ⟨119, (255, 0, 0)⟩]    -- Red

/-- The scan loop of `zone_color`: walk the table, breaking at the first
entry whose `base` exceeds `percent`, otherwise remembering `rgb` of the
entry.  The accumulator models the local variable `rgb` of the Python
loop; `none` means `rgb` was never assigned, in which case the final
`return Color(*rgb)` raises an unbound-local error — so a `none` result
models that error. -/
def zoneScan (percent : ℚ) : List ColorZone → Option RGB → Option RGB
  | [], rgb => rgb
  | z :: rest, rgb =>
    if percent < z.base then rgb else zoneScan percent rest (some z.rgb)

/-- Embedding of `zone_color` (lines 85-92): convert a power value to a
zone color via `percent = 100 * power / FTP` and the table scan. -/
def zone_color (power : ℚ) : Option RGB :=
  zoneScan (100 * power / FTP) COLORMAP none

/-- Follows the spec wording for the ZoneColorMap lookup: track the RGB of
the last (hence, the table being ascending, the highest) entry whose
threshold is less than or equal to percent, over the whole table, with no
early stop.  Used to compare the code scan against the spec description. -/
def specHighestZone (percent : ℚ) : List ColorZone → Option RGB → Option RGB
  | [], acc => acc
  | z :: rest, acc =>
    specHighestZone percent rest (if z.base ≤ percent then some z.rgb else acc)

/-- Embedding of the smoothing step of the render loop (line 169 of
`electric-rocker.py`): `avg_power = (power + 3 * avg_power) / 4`. -/
def smoother_update (avg sample_power : ℚ) : ℚ :=
  (sample_power + 3 * avg) / 4

/-- The three render modes of the loop body (lines 172-183). -/
inductive RenderMode
  | solid
  | paused
  | chase
deriving DecidableEq, Repr

/-- Mode selection of the render loop: `if cadence is None` solid fill,
`elif cadence == 0` sleep, `else` theater chase.  A pure function of the
cadence value of the current cycle alone. -/
def render_mode : Option ℚ → RenderMode
  | none => RenderMode.solid
  | some c => if c = 0 then RenderMode.paused else RenderMode.chase

/-- Chase step delay (line 180): `delay_ms = 10000 / cadence`. -/
def delay_ms (cadence : ℚ) : ℚ := 10000 / cadence

/-- Chase repeat count (line 181): `repeats = floor(1000 / delay_ms)`. -/
def chase_repeats (cadence : ℚ) : ℤ := ⌊1000 / delay_ms cadence⌋

/-! ## Helper lemmas -/

/-- Closed form of the zone scan over the concrete 7-entry table. -/
theorem zoneScan_colormap (q : ℚ) :
    zoneScan q COLORMAP none =
      if q < 0 then none
      else if q < 1 then some (0, 0, 0)
      else if q < 60 then some (64, 64, 64)
      else if q < 76 then some (0, 0, 127)
      else if q < 90 then some (0, 127, 0)
      else if q < 105 then some (127, 127, 0)
      else if q < 119 then some (127, 63, 0)
      else some (255, 0, 0) := by
  simp only [COLORMAP, zoneScan]

/-- Closed form of the spec lookup over the concrete 7-entry table. -/
theorem specHighestZone_colormap (q : ℚ) :
    specHighestZone q COLORMAP none =
      if (119 : ℚ) ≤ q then some (255, 0, 0)
      else if (105 : ℚ) ≤ q then some (127, 63, 0)
      else if (90 : ℚ) ≤ q then some (127, 127, 0)
      else if (76 : ℚ) ≤ q then some (0, 127, 0)
      else if (60 : ℚ) ≤ q then some (0, 0, 127)
      else if (1 : ℚ) ≤ q then some (64, 64, 64)
      else if (0 : ℚ) ≤ q then some (0, 0, 0)
      else none := by
  simp only [COLORMAP, specHighestZone]

set_option maxHeartbeats 1000000 in
/-- On a non-negative percent the early-stopping code scan agrees with the
spec lookup that has no early stop. -/
theorem zoneScan_eq_specHighestZone (q : ℚ) (hq : 0 ≤ q) :
    zoneScan q COLORMAP none = specHighestZone q COLORMAP none := by
  rw [zoneScan_colormap, specHighestZone_colormap]
  split_ifs <;> first | rfl | linarith

/-! ## Claims -/

/-- Claim C2: for all `a, b` in `[0, m)` with `m > 0`, the wrap delta
equals `(a - b + m) % m`, a non-negative integer (it is a ℕ by type);
in particular `delta(5, 250, 256) = 11` and `delta(10, 10, 256) = 0`. -/
theorem C2_wrap_delta :
    (∀ a b m : ℕ, 0 < m → a < m → b < m →
      (wrapDifference a b m : ℤ) = ((a : ℤ) - (b : ℤ) + (m : ℤ)) % (m : ℤ)) ∧
    wrapDifference 5 250 256 = 11 ∧
    wrapDifference 10 10 256 = 0 := by
  refine ⟨?_, by decide, by decide⟩
  intro a b m hm _ _
  have hm0 : (m : ℤ) ≠ 0 := by exact_mod_cast Nat.pos_iff_ne_zero.mp hm
  have hrw : (a : ℤ) - (b : ℤ) + (m : ℤ) = ((a : ℤ) - (b : ℤ)) + (m : ℤ) * 1 := by
    ring
  rw [wrapDifference, Int.toNat_of_nonneg (Int.emod_nonneg _ hm0), hrw,
    Int.add_mul_emod_self_left]

/-- Claim C2 witness: the general clause instantiated at `(5, 250, 256)`. -/
theorem C2_wrap_delta_witness :
    (wrapDifference 5 250 256 : ℤ) =
      ((5 : ℤ) - (250 : ℤ) + (256 : ℤ)) % (256 : ℤ) :=
  C2_wrap_delta.1 5 250 256 (by decide) (by decide) (by decide)

/-- Claim C7: the smoother update is `(sample + 3 * avg) / 4`; from 0,
updating with 200 gives 50 then 87.5; and for any target `c`, one update
moves the average strictly toward `c` without overshooting whenever
`avg ≠ c` (stated for both orders). -/
theorem C7_smoother :
    smoother_update 0 200 = 50 ∧
    smoother_update 50 200 = 175 / 2 ∧
    (∀ avg c : ℚ, avg < c →
      avg < smoother_update avg c ∧ smoother_update avg c < c) ∧
    (∀ avg c : ℚ, c < avg →
      c < smoother_update avg c ∧ smoother_update avg c < avg) := by
  refine ⟨by norm_num [smoother_update], by norm_num [smoother_update], ?_, ?_⟩
  · intro avg c h
    unfold smoother_update
    constructor <;> linarith
  · intro avg c h
    unfold smoother_update
    constructor <;> linarith

/-- Claim C7 witness: the strict-approach clause at `avg = 0`, `c = 200`. -/
theorem C7_smoother_witness :
    (0 : ℚ) < 200 ∧
    (0 : ℚ) < smoother_update 0 200 ∧ smoother_update 0 200 < 200 := by
  have h := C7_smoother.2.2.1 0 200 (by norm_num)
  exact ⟨by norm_num, h.1, h.2⟩

/-- Claim C5: for every non-negative power, `zone_color` computes
`percent = 100 * power / FTP` and returns the RGB of the highest table
entry whose threshold is at most percent (the spec lookup with no early
stop); concretely power 0 gives black, 150 (60 percent, an exact
threshold boundary) gives blue, 300 gives red. -/
theorem C5_zone_color_lookup :
    (∀ p : ℚ, 0 ≤ p →
      zone_color p = specHighestZone (100 * p / FTP) COLORMAP none) ∧
    zone_color 0 = some (0, 0, 0) ∧
    zone_color 150 = some (0, 0, 127) ∧
    zone_color 300 = some (255, 0, 0) := by
  refine ⟨?_, ?_, ?_, ?_⟩
  · intro p hp
    have hq : 0 ≤ 100 * p / FTP := by rw [FTP]; positivity
    rw [zone_color]
    exact zoneScan_eq_specHighestZone _ hq
  · rw [zone_color, zoneScan_colormap]; norm_num [FTP]
  · rw [zone_color, zoneScan_colormap]; norm_num [FTP]
  · rw [zone_color, zoneScan_colormap]; norm_num [FTP]

/-- Claim C5 witness: the general clause at power 150, which exercises an
exact threshold boundary (60 percent). -/
theorem C5_zone_color_lookup_witness :
    zone_color 150 = specHighestZone (100 * 150 / FTP) COLORMAP none :=
  C5_zone_color_lookup.1 150 (by norm_num)

/-- Claim C4 counterexample: at power `-1` the percent is negative, the
scan breaks before the local `rgb` is ever assigned, and the function
raises an unbound-local error (modelled as `none`) instead of returning
the first entry color black, contrary to the claim. -/
theorem C4_counterexample :
    zone_color (-1) = none ∧ zone_color (-1) ≠ some (0, 0, 0) := by
  have h : zone_color (-1) = none := by
    rw [zone_color, zoneScan_colormap]; norm_num [FTP]
  exact ⟨h, by rw [h]; exact fun hc => Option.noConfusion hc⟩

/-- Claim C4 as amended: `zone_color` is total and error-free for every
NON-NEGATIVE power (some color is always returned), and an arbitrarily
large power returns the highest entry color red; a negative power instead
raises an error (see the counterexample). -/
theorem C4_zone_color_total_nonneg :
    (∀ p : ℚ, 0 ≤ p → (zone_color p).isSome = true) ∧
    (∀ p : ℚ, 595 / 2 ≤ p → zone_color p = some (255, 0, 0)) := by
  constructor
  · intro p hp
    have hq : 0 ≤ 100 * p / FTP := by rw [FTP]; positivity
    rw [zone_color, zoneScan_colormap]
    split_ifs <;> first | rfl | linarith
  · intro p hp
    have hq : (119 : ℚ) ≤ 100 * p / FTP := by rw [FTP]; linarith
    rw [zone_color, zoneScan_colormap]
    split_ifs <;> first | rfl | linarith

/-- Claim C4 witness: totality at power 100 and the top zone at power
400. -/
theorem C4_zone_color_total_nonneg_witness :
    (zone_color 100).isSome = true ∧ zone_color 400 = some (255, 0, 0) :=
  ⟨C4_zone_color_total_nonneg.1 100 (by norm_num),
   C4_zone_color_total_nonneg.2 400 (by norm_num)⟩

/-- Claim C6 counterexample: with cadences `c1 = 20 > c2 = 10 > 0` the
repeat count computed for the smaller cadence is strictly SMALLER, not
greater or equal: `chase_repeats 10 = 1 < 2 = chase_repeats 20`. -/
theorem C6_counterexample :
    (0 : ℚ) < 10 ∧ (10 : ℚ) < 20 ∧ chase_repeats 10 < chase_repeats 20 := by
  refine ⟨by norm_num, by norm_num, ?_⟩
  have h10 : chase_repeats 10 = 1 := by
    rw [chase_repeats, delay_ms]
    norm_num
  have h20 : chase_repeats 20 = 2 := by
    rw [chase_repeats, delay_ms]
    norm_num
  rw [h10, h20]
  norm_num

/-- Claim C6 as amended: in Chase mode the step delay is
`delay = 10000 / cadence` and the repeat count is
`repeats = floor(1000 / delay)`, and repeats DECREASES monotonically as
cadence decreases: for cadences `c1 ≥ c2 > 0`, the repeat count for `c2`
is at most the repeat count for `c1`. -/
theorem C6_chase_schedule :
    (∀ c : ℚ, delay_ms c = 10000 / c) ∧
    (∀ c : ℚ, chase_repeats c = ⌊1000 / delay_ms c⌋) ∧
    (∀ c1 c2 : ℚ, 0 < c2 → c2 ≤ c1 →
      chase_repeats c2 ≤ chase_repeats c1) := by
  refine ⟨fun c => rfl, fun c => rfl, ?_⟩
  intro c1 c2 h2 h12
  rw [chase_repeats, chase_repeats, delay_ms, delay_ms,
    div_div_eq_mul_div, div_div_eq_mul_div]
  apply Int.floor_le_floor
  apply div_le_div_of_nonneg_right ?_ ?_
  · linarith
  · norm_num

/-- Claim C6 witness: the amended monotonicity at `c1 = 20`, `c2 = 10`. -/
theorem C6_chase_schedule_witness :
    chase_repeats 10 ≤ chase_repeats 20 :=
  C6_chase_schedule.2.2 20 10 (by norm_num) (by norm_num)

/-- Claim C8: the render mode is a pure function of the cycle cadence
alone: absent cadence selects Solid, zero selects Paused, positive selects
Chase; the three modes are pairwise distinct and every cadence value
selects exactly one of them. -/
theorem C8_render_mode_selection :
    render_mode none = RenderMode.solid ∧
    render_mode (some 0) = RenderMode.paused ∧
    (∀ c : ℚ, 0 < c → render_mode (some c) = RenderMode.chase) ∧
    (RenderMode.solid ≠ RenderMode.paused ∧
     RenderMode.paused ≠ RenderMode.chase ∧
     RenderMode.solid ≠ RenderMode.chase) ∧
    (∀ co : Option ℚ, render_mode co = RenderMode.solid ∨
      render_mode co = RenderMode.paused ∨
      render_mode co = RenderMode.chase) := by
  refine ⟨rfl, by simp [render_mode], ?_, ⟨by decide, by decide, by decide⟩, ?_⟩
  · intro c hc
    simp [render_mode, hc.ne']
  · intro co
    cases co with
    | none => exact Or.inl rfl
    | some c =>
      by_cases hc : c = 0
      · subst hc
        exact Or.inr (Or.inl (by simp [render_mode]))
      · exact Or.inr (Or.inr (by simp [render_mode, hc]))

/-- Claim C8 witness: the Chase clause at cadence 90. -/
theorem C8_render_mode_selection_witness :
    render_mode (some 90) = RenderMode.chase :=
  C8_render_mode_selection.2.2.1 90 (by norm_num)

/-- Claim C1: on the first ever sample, `power` becomes the instantaneous
power and the counters are stored as previous; on any later sample with a
positive event delta, `power` becomes total divided by events (the two
wrap deltas) and both previous counters are updated; concretely first
sample (event 0, acc 0, inst 150) then (event 4, acc 800) fuse to power
150 and then 200. -/
theorem C1_power_fusion :
    (∀ (s : PowerMeter) (count : ℕ) (cad : Option ℚ) (apower : ℕ)
        (ipower : Option ℚ),
      s.previous_count = none →
      (Rocker.power_data s count cad apower ipower).power = ipower ∧
      (Rocker.power_data s count cad apower ipower).previous_count =
        some count ∧
      (Rocker.power_data s count cad apower ipower).previous_power =
        some apower) ∧
    (∀ (s : PowerMeter) (count : ℕ) (cad : Option ℚ) (apower : ℕ)
        (ipower : Option ℚ) (pc pp : ℕ),
      s.previous_count = some pc → s.previous_power = some pp →
      0 < wrapDifference count pc 256 →
      (Rocker.power_data s count cad apower ipower).power =
        some ((wrapDifference apower pp 65536 : ℚ) /
          (wrapDifference count pc 256 : ℚ)) ∧
      (Rocker.power_data s count cad apower ipower).previous_count =
        some count ∧
      (Rocker.power_data s count cad apower ipower).previous_power =
        some apower) ∧
    (Rocker.power_data initMeter 0 none 0 (some 150)).power = some 150 ∧
    (Rocker.power_data (Rocker.power_data initMeter 0 none 0 (some 150))
      4 none 800 none).power = some 200 := by
  refine ⟨?_, ?_, by decide, ?_⟩
  · rintro ⟨pc0, pp0, pw0, cad0⟩ count cad apower ipower h
    cases h
    cases cad <;> simp [Rocker.power_data]
  · rintro ⟨pc0, pp0, pw0, cad0⟩ count cad apower ipower pc pp h1 h2 hev
    cases h1
    cases h2
    have hne : wrapDifference count pc 256 ≠ 0 := Nat.pos_iff_ne_zero.mp hev
    cases cad <;> simp [Rocker.power_data, hne]
  · have h1 : Rocker.power_data initMeter 0 none 0 (some 150) =
        ⟨some 0, some 0, some 150, none⟩ := by decide
    rw [h1]
    norm_num [Rocker.power_data, wrapDifference,
      show ((800 : ℤ)).toNat = 800 from rfl, show ((4 : ℤ)).toNat = 4 from rfl]

/-- Claim C1 witness: the first-sample clause at a fresh meter and the
positive-delta clause at previous count 3, previous power 50, sample
count 5, accumulated power 150. -/
theorem C1_power_fusion_witness :
    (Rocker.power_data initMeter 7 none 100 (some 42)).power = some 42 ∧
    (Rocker.power_data ⟨some 3, some 50, none, none⟩ 5 none 150 none).power =
      some ((wrapDifference 150 50 65536 : ℚ) /
        (wrapDifference 5 3 256 : ℚ)) := by
  have h := C1_power_fusion
  exact ⟨(h.1 initMeter 7 none 100 (some 42) rfl).1,
    (h.2.1 ⟨some 3, some 50, none, none⟩ 5 none 150 none 3 50 rfl rfl
      (by decide)).1⟩

/-- Claim C3: a sample whose event delta against the stored previous count
is 0 leaves `power` and both previous counters untouched (the early return
fires before the division can be reached); concretely an exact duplicate
of (event 5, acc 1000, inst 200, cadence 80) leaves the whole state, and
in particular the fused power 200, unchanged. -/
theorem C3_zero_event_delta :
    (∀ (s : PowerMeter) (count : ℕ) (cad : Option ℚ) (apower : ℕ)
        (ipower : Option ℚ) (pc : ℕ),
      s.previous_count = some pc →
      wrapDifference count pc 256 = 0 →
      (Rocker.power_data s count cad apower ipower).power = s.power ∧
      (Rocker.power_data s count cad apower ipower).previous_count =
        s.previous_count ∧
      (Rocker.power_data s count cad apower ipower).previous_power =
        s.previous_power) ∧
    Rocker.power_data (Rocker.power_data initMeter 5 (some 80) 1000 (some 200))
        5 (some 80) 1000 (some 200) =
      Rocker.power_data initMeter 5 (some 80) 1000 (some 200) ∧
    (Rocker.power_data initMeter 5 (some 80) 1000 (some 200)).power =
      some 200 := by
  refine ⟨?_, by decide, by decide⟩
  rintro ⟨pc0, pp0, pw0, cad0⟩ count cad apower ipower pc h1 hev
  cases h1
  cases pp0 <;> cases cad <;> simp [Rocker.power_data, hev]

/-- Claim C3 witness: the zero-delta clause at a meter whose previous
count is 5, fed a sample with the same event count 5. -/
theorem C3_zero_event_delta_witness :
    (Rocker.power_data ⟨some 5, some 1000, some 200, some 80⟩
        5 none 1000 none).power =
      (⟨some 5, some 1000, some 200, some 80⟩ : PowerMeter).power :=
  (C3_zero_event_delta.1 ⟨some 5, some 1000, some 200, some 80⟩
    5 none 1000 none 5 rfl (by decide)).1

/-- Claim C9: an absent cadence field never clobbers the stored cadence,
and a present cadence field always overwrites it, whatever the event
delta and the rest of the state. -/
theorem C9_cadence_overwrite :
    (∀ (s : PowerMeter) (count : ℕ) (apower : ℕ) (ipower : Option ℚ),
      (Rocker.power_data s count none apower ipower).cadence = s.cadence) ∧
    (∀ (s : PowerMeter) (count : ℕ) (c : ℚ) (apower : ℕ)
        (ipower : Option ℚ),
      (Rocker.power_data s count (some c) apower ipower).cadence =
        some c) := by
  constructor
  · rintro ⟨pc0, pp0, pw0, cad0⟩ count apower ipower
    cases pc0 <;> cases pp0 <;> simp [Rocker.power_data] <;> (split_ifs; all_goals rfl)
  · rintro ⟨pc0, pp0, pw0, cad0⟩ count c apower ipower
    cases pc0 <;> cases pp0 <;> simp [Rocker.power_data] <;> (split_ifs; all_goals rfl)

/-- Claim C10: the fusion logic of the two programs is the same function:
ingesting any sequence of samples from the fresh all-absent state leaves
the two embedded `power_data` implementations in identical states after
every step. -/
theorem C10_rocker_rack_equivalence :
    (∀ (s : PowerMeter) (x : RawSample),
      Rocker.ingest s x = Rack.ingest s x) ∧
    (∀ l : List RawSample,
      List.foldl Rocker.ingest initMeter l =
        List.foldl Rack.ingest initMeter l) := by
  have h : Rocker.ingest = Rack.ingest := rfl
  exact ⟨fun s x => by rw [h], fun l => by rw [h]⟩
